import Mathlib

/-!
# gpxlogger: segmentation policy and GPX writer

A shallow embedding of `gpxlogger.c`: the writer functions
(`print_gpx_header`, `print_gpx_trk_start`, `print_gpx_trk_end`,
`print_fix`, `print_gpx_footer`), the segmenter `conditionally_log_fix`
and the option loop of `main`.

Modelling conventions.

* A C `double` is modelled by `Double`: NaN and the two infinities are
  explicit, a finite double is its exact rational value.  Comparisons follow
  IEEE 754 (every comparison with NaN is false); arithmetic on finite values
  is exact, rounding is not modelled.
* The text written to `logfile` is a list of `Line`s, one constructor per
  `fprintf` statement of the source, carrying the arguments of that
  statement (`Line.text` gives the format string back).
* A `FILE` is either usable or not (closed, or the NULL pointer).  Writing to
  an unusable stream is undefined behaviour in C and has no result here, so
  every writer function returns an `Option`.
-/

namespace Gpxlogger

/-! ## Doubles -/

/-- A C `double`: NaN, minus infinity, a finite value, plus infinity. -/
inductive Double where
  | nan : Double
  | ninf : Double
  | fin (q : ℚ) : Double
  | pinf : Double
  deriving DecidableEq

namespace Double

/-- C `isnan(x) != 0`. -/
def isnan : Double → Bool
  | nan => true
  | _ => false

/-- C `a == b` on doubles: false as soon as one side is NaN. -/
def eq : Double → Double → Bool
  | fin a, fin b => decide (a = b)
  | pinf, pinf => true
  | ninf, ninf => true
  | _, _ => false

/-- C `a < b` on doubles: false as soon as one side is NaN. -/
def lt : Double → Double → Bool
  | fin a, fin b => decide (a < b)
  | ninf, fin _ => true
  | ninf, pinf => true
  | fin _, pinf => true
  | _, _ => false

/-- C `a > b` on doubles. -/
def gt (a b : Double) : Bool := lt b a

/-- C `a - b` on doubles (exact on finite values). -/
def sub : Double → Double → Double
  | nan, _ => nan
  | _, nan => nan
  | pinf, pinf => nan
  | ninf, ninf => nan
  | pinf, _ => pinf
  | ninf, _ => ninf
  | fin _, pinf => ninf
  | fin _, ninf => pinf
  | fin a, fin b => fin (a - b)

/-- C `fabs(x)`. -/
def fabs : Double → Double
  | nan => nan
  | ninf => pinf
  | pinf => pinf
  | fin q => fin |q|

/-- Conversion of a C integer (`int`, `time_t`) to `double`. -/
def ofInt (i : Int) : Double := fin (i : ℚ)

end Double

/-! ## The data of `gps.h` that the logger reads -/

/-- Modelled from the spec: `gps.h` is not among the sources; acquisition mode
"no fix". -/
def MODE_NO_FIX : Int := 1

/-- Modelled from the spec: `gps.h` is not among the sources; acquisition mode
"2D". -/
def MODE_2D : Int := 2

/-- Modelled from the spec: `gps.h` is not among the sources; acquisition mode
"3D". -/
def MODE_3D : Int := 3

/-- Modelled from the spec: `gps.h` is not among the sources; the fix-quality
status that indicates differential correction. -/
def STATUS_DGPS_FIX : Int := 2

/-- The fields of `struct gps_fix_t` used by the logger. -/
structure gps_fix_t where
  time : Double
  mode : Int
  latitude : Double
  longitude : Double
  altitude : Double
  deriving DecidableEq

/-- The fields of `struct dop_t` used by the logger. -/
structure dop_t where
  hdop : Double
  vdop : Double
  pdop : Double
  deriving DecidableEq

/-- The fields of `struct gps_data_t` used by the logger. -/
structure gps_data_t where
  fix : gps_fix_t
  status : Int
  satellites_used : Int
  dop : dop_t
  tag : String
  deriving DecidableEq

/-! ## Output lines -/

/-- One constructor per `fprintf(logfile, ...)` statement of the source. -/
inductive Line where
  | xml_decl : Line
  | gpx_open : Line
  | xmlns_xsi : Line
  | xmlns_gpx : Line
  | schema_location : Line
  | schema_xsd : Line
  | metadata_open : Line
  | metadata_time (now : Double) : Line
  | metadata_close : Line
  | trkseg_close : Line
  | trk_close : Line
  | gpx_close : Line
  | trk_open : Line
  | trk_src : Line
  | trkseg_open : Line
  | trkpt_open (lat lon : Double) : Line
  | ele (altitude : Double) : Line
  | time (t : Double) : Line
  | src (tag : String) : Line
  | fix_dgps : Line
  | fix_3d : Line
  | fix_2d : Line
  | fix_none : Line
  | sat (used : Int) : Line
  | hdop (d : Double) : Line
  | vdop (d : Double) : Line
  | pdop (d : Double) : Line
  | trkpt_close : Line
  deriving DecidableEq

/-- The text of a line: the format string of its `fprintf`, with the
conversions filled in by the given renderers (`version` is the VERSION
string, `f6` renders `%f`, `f1` renders `%.1f`, `iso` is
`unix_to_iso8601`). -/
def Line.text (version : String) (f6 f1 iso : Double → String) : Line → String
  | .xml_decl => "<?xml version=\"1.0\" encoding=\"utf-8\"?>\n"
  | .gpx_open =>
      "<gpx version=\"1.1\" creator=\"GPSD " ++ version ++ " - http://gpsd.berlios.de/\"\n"
  | .xmlns_xsi => "        xmlns:xsi=\"http://www.w3.org/2001/XMLSchema-instance\"\n"
  | .xmlns_gpx => "        xmlns=\"http://www.topografix.com/GPX/1/1\"\n"
  | .schema_location => "        xsi:schemaLocation=\"http://www.topografix.com/GPX/1/1\n"
  | .schema_xsd => "        http://www.topografix.com/GPX/1/1/gpx.xsd\">\n"
  | .metadata_open => " <metadata>\n"
  | .metadata_time now => "  <time>" ++ iso now ++ "</time>\n"
  | .metadata_close => " </metadata>\n"
  | .trkseg_close => "  </trkseg>\n"
  | .trk_close => " </trk>\n"
  | .gpx_close => "</gpx>\n"
  | .trk_open => " <trk>\n"
  | .trk_src => "  <src>GPSD " ++ version ++ "</src>\n"
  | .trkseg_open => "  <trkseg>\n"
  | .trkpt_open lat lon => "   <trkpt lat=\"" ++ f6 lat ++ "\" lon=\"" ++ f6 lon ++ "\">\n"
  | .ele a => "    <ele>" ++ f6 a ++ "</ele>\n"
  | .time t => "    <time>" ++ iso t ++ "</time>\n"
  | .src tag => "    <src>GPSD tag=\"" ++ tag ++ "\"</src>\n"
  | .fix_dgps => "    <fix>dgps</fix>\n"
  | .fix_3d => "    <fix>3d</fix>\n"
  | .fix_2d => "    <fix>2d</fix>\n"
  | .fix_none => "    <fix>none</fix>\n"
  | .sat n => "    <sat>" ++ toString n ++ "</sat>\n"
  | .hdop d => "    <hdop>" ++ f1 d ++ "</hdop>\n"
  | .vdop d => "    <vdop>" ++ f1 d ++ "</vdop>\n"
  | .pdop d => "    <pdop>" ++ f1 d ++ "</pdop>\n"
  | .trkpt_close => "   </trkpt>\n"

/-! ## Streams -/

/-- An output stream: whether it can be written (an open stream, as opposed
to a closed one or to the NULL pointer) and the lines written so far. -/
structure FILE where
  usable : Bool
  content : List Line
  deriving DecidableEq

/-- C `fprintf(f, line)`; no result on an unusable stream. -/
def fprintf (f : FILE) (l : Line) : Option FILE :=
  if f.usable then some { f with content := f.content ++ [l] } else none

/-- C `fflush(f)`; no result on an unusable stream. -/
def fflush (f : FILE) : Option FILE :=
  if f.usable then some f else none

/-- C `fclose(f)`; no result on an unusable stream. -/
def fclose (f : FILE) : Option FILE :=
  if f.usable then some { f with usable := false } else none

/-! ## Program state -/

/-- The file-scope variables of the transport-independent part, and the
`static` locals of `conditionally_log_fix`. -/
structure Globals where
  logfile : FILE
  intrack : Bool
  timeout : Int
  minmove : Double
  int_time : Double
  old_int_time : Double
  old_lat : Double
  old_lon : Double
  first : Bool
  deriving DecidableEq

/-- The state at program start, for a usable `logfile` and the configured
`timeout` and `minmove`: `intrack = false`, `first = true`, the static doubles
zero-initialised. -/
def Globals.initial (timeout : Int) (minmove : Double) : Globals :=
  { logfile := { usable := true, content := [] }
    intrack := false
    timeout := timeout
    minmove := minmove
    int_time := Double.fin 0
    old_int_time := Double.fin 0
    old_lat := Double.fin 0
    old_lon := Double.fin 0
    first := true }

/-- Write one line to `logfile`. -/
def emit (s : Globals) (l : Line) : Option Globals :=
  (fprintf s.logfile l).map fun f => { s with logfile := f }

/-- Flush `logfile`. -/
def flush (s : Globals) : Option Globals :=
  (fflush s.logfile).map fun f => { s with logfile := f }

/-! ## The writer -/

/-- The function `print_gpx_header`; `now` is the value of `time(NULL)`. -/
def print_gpx_header (now : Double) (s : Globals) : Option Globals := do
  let s ← emit s Line.xml_decl
  let s ← emit s Line.gpx_open
  let s ← emit s Line.xmlns_xsi
  let s ← emit s Line.xmlns_gpx
  let s ← emit s Line.schema_location
  let s ← emit s Line.schema_xsd
  let s ← emit s Line.metadata_open
  let s ← emit s (Line.metadata_time now)
  let s ← emit s Line.metadata_close
  flush s

/-- The function `print_gpx_trk_end`. -/
def print_gpx_trk_end (s : Globals) : Option Globals := do
  let s ← emit s Line.trkseg_close
  let s ← emit s Line.trk_close
  flush s

/-- The function `print_gpx_footer`. -/
def print_gpx_footer (s : Globals) : Option Globals := do
  let s ← (if s.intrack then print_gpx_trk_end s else some s)
  let s ← emit s Line.gpx_close
  (fclose s.logfile).map fun f => { s with logfile := f }

/-- The function `print_gpx_trk_start`. -/
def print_gpx_trk_start (s : Globals) : Option Globals := do
  let s ← emit s Line.trk_open
  let s ← emit s Line.trk_src
  let s ← emit s Line.trkseg_open
  flush s

/-- The function `print_fix`. -/
def print_fix (s : Globals) (gpsdata : gps_data_t) (time : Double) : Option Globals := do
  let s ← emit s (Line.trkpt_open gpsdata.fix.latitude gpsdata.fix.longitude)
  let s ← (if Double.isnan gpsdata.fix.altitude = false then
      emit s (Line.ele gpsdata.fix.altitude) else some s)
  let s ← emit s (Line.time time)
  let s ← emit s (Line.src gpsdata.tag)
  let s ← (if gpsdata.status = STATUS_DGPS_FIX then emit s Line.fix_dgps
    else if gpsdata.fix.mode = MODE_3D then emit s Line.fix_3d
    else if gpsdata.fix.mode = MODE_2D then emit s Line.fix_2d
    else if gpsdata.fix.mode = MODE_NO_FIX then emit s Line.fix_none
    else some s)
  let s ← (if gpsdata.fix.mode > MODE_NO_FIX ∧ gpsdata.satellites_used > 0 then
      emit s (Line.sat gpsdata.satellites_used) else some s)
  let s ← (if Double.isnan gpsdata.dop.hdop = false then
      emit s (Line.hdop gpsdata.dop.hdop) else some s)
  let s ← (if Double.isnan gpsdata.dop.vdop = false then
      emit s (Line.vdop gpsdata.dop.vdop) else some s)
  let s ← (if Double.isnan gpsdata.dop.pdop = false then
      emit s (Line.pdop gpsdata.dop.pdop) else some s)
  let s ← emit s Line.trkpt_close
  flush s

/-! ## The segmenter -/

/-- The type of `earth_distance(lat1, lon1, lat2, lon2)`, a function of
libgps that is not among the sources: it is a parameter of the segmenter. -/
abbrev EarthDistance := Double → Double → Double → Double → Double

/-- The function `conditionally_log_fix`; the `static` locals are fields of the
state. -/
def conditionally_log_fix (earth_distance : EarthDistance) (s : Globals)
    (gpsdata : gps_data_t) : Option Globals :=
  let s := { s with int_time := gpsdata.fix.time }
  if Double.eq s.int_time s.old_int_time || decide (gpsdata.fix.mode < MODE_2D) then
    some s
  else if Double.gt s.minmove (Double.ofInt 0) && !s.first
      && Double.lt (earth_distance gpsdata.fix.latitude gpsdata.fix.longitude
            s.old_lat s.old_lon) s.minmove then
    some s
  else do
    let s ← (if Double.gt (Double.fabs (Double.sub s.int_time s.old_int_time))
          (Double.ofInt s.timeout) && !s.first then
        (print_gpx_trk_end s).map fun s => { s with intrack := false }
      else some s)
    let s ← (if !s.intrack then
        (print_gpx_trk_start s).map fun s =>
          let s := { s with intrack := true }
          if s.first then { s with first := false } else s
      else some s)
    let s := { s with old_int_time := s.int_time }
    let s := if Double.gt s.minmove (Double.ofInt 0) then
        { s with old_lat := gpsdata.fix.latitude, old_lon := gpsdata.fix.longitude }
      else s
    print_fix s gpsdata s.int_time

/-- The function `conditionally_log_fix` applied to each fix of a sequence, in
arrival order. -/
def log_fixes (earth_distance : EarthDistance) :
    Globals → List gps_data_t → Option Globals
  | s, [] => some s
  | s, g :: gs =>
    (conditionally_log_fix earth_distance s g).bind fun s => log_fixes earth_distance s gs

/-- Modelled from the spec: `gps_mainloop` is a libgps function that is not
among the sources; it "invokes `onFix` once per incoming fix", here the hook
`conditionally_log_fix` on the finite sequence of reports received before the
run ends. -/
def gps_mainloop (earth_distance : EarthDistance) (s : Globals)
    (fixes : List gps_data_t) : Option Globals :=
  log_fixes earth_distance s fixes

/-- The three writer calls at the end of `main` (`print_gpx_header`,
`gps_mainloop`, `print_gpx_footer`), from a given state; the result is the
text written to `logfile`.  `quit_handler` runs the same `print_gpx_footer`
when a signal ends the loop. -/
def run_logger (earth_distance : EarthDistance) (now : Double) (s : Globals)
    (fixes : List gps_data_t) : Option (List Line) := do
  let s ← print_gpx_header now s
  let s ← gps_mainloop earth_distance s fixes
  let s ← print_gpx_footer s
  some s.logfile.content

/-- The document written for a sequence of fixes: `print_gpx_header`, then
`conditionally_log_fix` on each fix in arrival order from the state at
program start (`first = true`, `intrack = false`, a usable `logfile`), then
`print_gpx_footer`. -/
def gpx_document (earth_distance : EarthDistance) (now : Double) (timeout : Int)
    (minmove : Double) (fixes : List gps_data_t) : Option (List Line) := do
  let s ← print_gpx_header now (Globals.initial timeout minmove)
  let s ← log_fixes earth_distance s fixes
  let s ← print_gpx_footer s
  some s.logfile.content

/-! ## `main`: the option loop and the start of the logger -/

/-- The value of a `FILE *`: the NULL pointer, `stdout`, or the stream that a
successful `fopen` of the given name returned. -/
inductive FilePtr where
  | null : FilePtr
  | stdout : FilePtr
  | file (fname : String) : FilePtr
  deriving DecidableEq

/-- The stream behind a `FILE *` when writing starts: nothing can be written
through the NULL pointer. -/
def FilePtr.stream : FilePtr → FILE
  | .null => { usable := false, content := [] }
  | .stdout => { usable := true, content := [] }
  | .file _ => { usable := true, content := [] }

/-- An entry of the `methods` table (`struct method_t`): its name and its
description; the init function is referred to by the index of the entry. -/
structure method_t where
  name : String
  description : String
  deriving DecidableEq

/-- One option as `getopt(argc, argv, "dD:e:f:hi:lm:V")` returns it, with its
argument; `other` is what `getopt` reports for anything else. -/
inductive Opt where
  | d : Opt
  | D (optarg : String) : Opt
  | e (optarg : String) : Opt
  | f (optarg : String) : Opt
  | h : Opt
  | i (optarg : String) : Opt
  | l : Opt
  | m (optarg : String) : Opt
  | V : Opt
  | other : Opt
  deriving DecidableEq

/-- The messages `main` writes to `stderr`, to syslog and (for `-l`) to
`stdout`, one constructor per statement. -/
inductive Diag where
  | unknown_method (optarg : String) : Diag
  | bad_template (optarg : String) : Diag
  | fopen_failed (fname : String) : Diag
  | timeout_warning : Diag
  | method_listing (methods : List method_t) : Diag
  | revision : Diag
  | usage : Diag
  | daemon_without_logfile : Diag
  | no_export_methods : Diag
  deriving DecidableEq

/-- The text of a message, as in the source (`progname` is `argv[0]`, `err`
the text of `strerror(errno)`, `revision` the REVISION string, `default` the
name of `methods[0]` or "(none)"). -/
def Diag.text (progname err revision default : String) : Diag → String
  | .unknown_method optarg => progname ++ ": " ++ optarg ++ " is not a known export method.\n"
  | .bad_template optarg => "Bad template \"" ++ optarg ++ "\", logging to stdout."
  | .fopen_failed fname => "Failed to open " ++ fname ++ ": " ++ err ++ ", logging to stdout."
  | .timeout_warning => "WARNING: track timeout is an hour or more!\n"
  | .method_listing methods =>
      String.join (methods.map fun mp => mp.name ++ ": " ++ mp.description ++ "\n")
  | .revision => "gpxlogger revision " ++ revision ++ "\n"
  | .usage => "Usage: " ++ progname
      ++ " [-V] [-h] [-d] [-i timeout] [-f filename] [-m minmove]\n"
      ++ "\t[-e exportmethod] [server[:port:[device]]]\n\n"
      ++ "defaults to '" ++ progname ++ " -i 5 -e " ++ default ++ " localhost:2947'\n"
  | .daemon_without_logfile => "Daemon mode with no valid logfile name - exiting."
  | .no_export_methods => progname ++ ": no export methods.\n"

/-- What `main` depends on outside the source file: the entries of the
`methods` table (fixed by the build configuration), whether
`CLIENTDEBUG_ENABLE` is defined, `atoi`, the result of `strftime` on a template
(its return value and the name it produced), whether `fopen(name, "w")`
succeeds, and whether the init function of a method returns (each of them
calls `exit(1)` when `gps_open` fails). -/
structure Env where
  methods : List method_t
  clientdebug : Bool
  atoi : String → Int
  strftime : String → Nat × String
  fopen : String → Bool
  connects : Nat → Bool

/-- The variables of `main` and the file-scope variables it sets, with the
messages written so far. -/
structure MainState where
  logfile : FilePtr
  daemonize : Bool
  method : Option Nat
  timeout : Int
  minmove : Double
  stderr : List Diag
  syslog : List Diag
  stdout : List Diag
  deriving DecidableEq

/-- The state when the option loop starts: `logfile = stdout`,
`daemonize = false`, `method = NULL`, `timeout = 5`, `minmove = 0`. -/
def MainState.initial : MainState :=
  { logfile := .stdout
    daemonize := false
    method := none
    timeout := 5
    minmove := Double.fin 0
    stderr := []
    syslog := []
    stdout := [] }

/-- Either the program has called `exit`, or it goes on. -/
inductive Step where
  | exit (status : Int) (st : MainState) : Step
  | next (st : MainState) : Step
  deriving DecidableEq

/-- The loop of `case 'e'`: `for (mp = methods; ...) if (strcmp(mp->name,
optarg) == 0) method = mp;`, from entry number `i` on.  `method` is the index
of the entry pointed to, `none` for NULL. -/
def find_method (optarg : String) : List method_t → Nat → Option Nat → Option Nat
  | [], _, method => method
  | mp :: rest, i, method =>
    find_method optarg rest (i + 1) (if mp.name = optarg then some i else method)

/-- The function `usage`: a message on `stderr` and `exit(1)`. -/
def usage (st : MainState) : Step :=
  .exit 1 { st with stderr := st.stderr ++ [Diag.usage] }

/-- The body of the `switch (ch)` in `main` for one option. -/
def handle_option (env : Env) (st : MainState) : Opt → Step
  | .d => .next { st with daemonize := true }
  | .D _ => if env.clientdebug then .next st else usage st
  | .e optarg =>
    let method := find_method optarg env.methods 0 st.method
    if method = none then
      .exit 1 { st with method := method
                        stderr := st.stderr ++ [Diag.unknown_method optarg] }
    else .next { st with method := method }
  | .f optarg =>
    let (n, fname) := env.strftime optarg
    if n = 0 then
      .next { st with syslog := st.syslog ++ [Diag.bad_template optarg] }
    else if env.fopen fname then
      .next { st with logfile := .file fname }
    else
      .next { st with logfile := .null
                      syslog := st.syslog ++ [Diag.fopen_failed fname] }
  | .i optarg =>
    let timeout := env.atoi optarg
    let timeout := if timeout < 1 then 1 else timeout
    if timeout ≥ 3600 then
      .next { st with timeout := timeout, stderr := st.stderr ++ [Diag.timeout_warning] }
    else .next { st with timeout := timeout }
  | .l => .exit 0 { st with stdout := st.stdout ++ [Diag.method_listing env.methods] }
  | .m optarg => .next { st with minmove := Double.ofInt (env.atoi optarg) }
  | .V => .exit 0 { st with stderr := st.stderr ++ [Diag.revision] }
  | .h => usage st
  | .other => usage st

/-- The `while ((ch = getopt(...)) != -1)` loop of `main`. -/
def option_loop (env : Env) : MainState → List Opt → Step
  | st, [] => .next st
  | st, o :: os =>
    match handle_option env st o with
    | .exit status st => .exit status st
    | .next st => option_loop env st os

/-- How a run of `main` ends: with `exit(status)` before anything is logged, or
after the init function of method number `init` has returned and the logger
has run; `text` is what the logger wrote (`none` when it has no defined
result). -/
inductive Run where
  | exited (status : Int) (st : MainState) : Run
  | logged (st : MainState) (init : Nat) (text : Option (List Line)) : Run
  deriving DecidableEq

/-- The state of the transport-independent part when the logger starts. -/
def MainState.globals (st : MainState) : Globals :=
  { Globals.initial st.timeout st.minmove with logfile := st.logfile.stream }

/-- The logger once a method is chosen: its init function, then
`print_gpx_header`, `gps_mainloop`, `print_gpx_footer`. -/
def start_logging (env : Env) (ed : EarthDistance) (now : Double) (st : MainState)
    (init : Nat) (fixes : List gps_data_t) : Run :=
  if env.connects init then .logged st init (run_logger ed now st.globals fixes)
  else .exited 1 st

/-- The function `main`, for the options that `getopt` yields and the fixes
received. -/
def main (env : Env) (ed : EarthDistance) (now : Double) (opts : List Opt)
    (fixes : List gps_data_t) : Run :=
  match option_loop env MainState.initial opts with
  | .exit status st => .exited status st
  | .next st =>
    if st.daemonize && decide (st.logfile = FilePtr.stdout) then
      .exited 1 { st with syslog := st.syslog ++ [Diag.daemon_without_logfile] }
    else
      match st.method with
      | some mp => start_logging env ed now st mp fixes
      | none =>
        if env.methods.length ≠ 0 then start_logging env ed now st 0 fixes
        else .exited 1 { st with stderr := st.stderr ++ [Diag.no_export_methods] }

/-- A build with the shared-memory and the socket method, a file system on
which no file can be opened for writing, and a reachable daemon. -/
def sample_env : Env :=
  { methods := [{ name := "shm", description := "shared memory" },
                { name := "sockets", description := "JSON via sockets" }]
    clientdebug := false
    atoi := fun a => (a.toNat?.getD 0 : Nat)
    strftime := fun template => (template.length, template)
    fopen := fun _ => false
    connects := fun _ => true }

/-! ## Vocabulary for the properties -/

/-- The lines of `print_gpx_trk_start`: the segment-start marker. -/
def trk_start_lines : List Line := [Line.trk_open, Line.trk_src, Line.trkseg_open]

/-- The lines of `print_gpx_trk_end`: the segment-end marker. -/
def trk_end_lines : List Line := [Line.trkseg_close, Line.trk_close]

/-- The lines of `print_gpx_header`. -/
def header_lines (now : Double) : List Line :=
  [Line.xml_decl, Line.gpx_open, Line.xmlns_xsi, Line.xmlns_gpx, Line.schema_location,
   Line.schema_xsd, Line.metadata_open, Line.metadata_time now, Line.metadata_close]

/-- A line that belongs to a segment-start or segment-end marker. -/
def Line.is_boundary : Line → Bool
  | .trk_open => true
  | .trk_src => true
  | .trkseg_open => true
  | .trkseg_close => true
  | .trk_close => true
  | _ => false

/-- A line that belongs to a segment-end marker. -/
def Line.is_trk_end : Line → Bool
  | .trkseg_close => true
  | .trk_close => true
  | _ => false

/-- A line that belongs to a `<trkpt>` element (the lines `print_fix` writes). -/
def Line.is_trkpt : Line → Bool
  | .trkpt_open _ _ => true
  | .ele _ => true
  | .time _ => true
  | .src _ => true
  | .fix_dgps => true
  | .fix_3d => true
  | .fix_2d => true
  | .fix_none => true
  | .sat _ => true
  | .hdop _ => true
  | .vdop _ => true
  | .pdop _ => true
  | .trkpt_close => true
  | _ => false

/-- The boundary lines of a text, in order. -/
def boundary_lines (out : List Line) : List Line := out.filter Line.is_boundary

/-- The `<trkpt>` lines of a text, in order. -/
def trkpt_part (out : List Line) : List Line := out.filter Line.is_trkpt

/-- The boundary lines of `n` closed segments: `n` times a segment-start
marker followed by a segment-end marker. -/
def closed_segments : Nat → List Line
  | 0 => []
  | n + 1 => closed_segments n ++ (trk_start_lines ++ trk_end_lines)

/-- One optional line. -/
def opt_line (present : Bool) (l : Line) : List Line := if present then [l] else []

/-- The `<fix>` child as the specification words it: "dgps" for the
differential status, else "3d", "2d" or "none" from the mode, else omitted. -/
def fix_quality (g : gps_data_t) : List Line :=
  if g.status = STATUS_DGPS_FIX then [Line.fix_dgps]
  else if g.fix.mode = MODE_3D then [Line.fix_3d]
  else if g.fix.mode = MODE_2D then [Line.fix_2d]
  else if g.fix.mode = MODE_NO_FIX then [Line.fix_none]
  else []

/-- The children of a `<trkpt>` element as the specification lists them. -/
def trkpt_children (g : gps_data_t) (time : Double) : List Line :=
  opt_line (!Double.isnan g.fix.altitude) (Line.ele g.fix.altitude)
    ++ [Line.time time]
    ++ [Line.src g.tag]
    ++ fix_quality g
    ++ opt_line (decide (g.fix.mode > MODE_NO_FIX) && decide (g.satellites_used > 0))
        (Line.sat g.satellites_used)
    ++ opt_line (!Double.isnan g.dop.hdop) (Line.hdop g.dop.hdop)
    ++ opt_line (!Double.isnan g.dop.vdop) (Line.vdop g.dop.vdop)
    ++ opt_line (!Double.isnan g.dop.pdop) (Line.pdop g.dop.pdop)

/-- The whole `<trkpt>` element of a fix. -/
def trkpt_lines (g : gps_data_t) (time : Double) : List Line :=
  [Line.trkpt_open g.fix.latitude g.fix.longitude] ++ trkpt_children g time
    ++ [Line.trkpt_close]

/-- The state with some lines appended to `logfile`. -/
def Globals.write (s : Globals) (ls : List Line) : Globals :=
  { s with logfile := { s.logfile with content := s.logfile.content ++ ls } }

/-- The first `return` of `conditionally_log_fix`: same timestamp as the last
accepted one (C `==`), or mode below 2D. -/
def stale_or_invalid (s : Globals) (g : gps_data_t) : Bool :=
  Double.eq g.fix.time s.old_int_time || decide (g.fix.mode < MODE_2D)

/-- The second `return` of `conditionally_log_fix`: distance filtering is on,
a fix was accepted before, and the fix is closer than `minmove` to it. -/
def too_close (earth_distance : EarthDistance) (s : Globals) (g : gps_data_t) : Bool :=
  Double.gt s.minmove (Double.ofInt 0) && !s.first
    && Double.lt (earth_distance g.fix.latitude g.fix.longitude s.old_lat s.old_lon) s.minmove

/-- A fix is accepted when `conditionally_log_fix` takes neither `return`. -/
def accepted (earth_distance : EarthDistance) (s : Globals) (g : gps_data_t) : Bool :=
  !stale_or_invalid s g && !too_close earth_distance s g

/-- The test `fabs(int_time - old_int_time) > timeout`. -/
def gap_exceeds (s : Globals) (g : gps_data_t) : Bool :=
  Double.gt (Double.fabs (Double.sub g.fix.time s.old_int_time)) (Double.ofInt s.timeout)

/-- The state a discarded fix leaves: only the scratch variable `int_time`
has changed. -/
def Globals.discard (s : Globals) (g : gps_data_t) : Globals :=
  { s with int_time := g.fix.time }

/-- The segment-end marker is written when the time gap exceeds the timeout
and a fix was accepted before. -/
def closes_segment (s : Globals) (g : gps_data_t) : Bool :=
  gap_exceeds s g && !s.first

/-- The segment-start marker is written when no segment is open once the
previous one has been closed. -/
def opens_segment (s : Globals) (g : gps_data_t) : Bool :=
  closes_segment s g || !s.intrack

/-- The state an accepted fix leaves. -/
def Globals.accept (s : Globals) (g : gps_data_t) : Globals :=
  { logfile :=
      { s.logfile with
        content := s.logfile.content
          ++ ((if closes_segment s g then trk_end_lines else [])
          ++ ((if opens_segment s g then trk_start_lines else [])
          ++ trkpt_lines g g.fix.time)) }
    intrack := true
    timeout := s.timeout
    minmove := s.minmove
    int_time := g.fix.time
    old_int_time := g.fix.time
    old_lat := if Double.gt s.minmove (Double.ofInt 0) then g.fix.latitude else s.old_lat
    old_lon := if Double.gt s.minmove (Double.ofInt 0) then g.fix.longitude else s.old_lon
    first := if opens_segment s g then false else s.first }

/-- Whether a segment is open at the end of a text, given whether one was open
at its beginning: `<trkseg>` opens, `</trkseg>` closes. -/
def open_after : Bool → List Line → Bool
  | b, [] => b
  | _, Line.trkseg_open :: rest => open_after true rest
  | _, Line.trkseg_close :: rest => open_after false rest
  | b, _ :: rest => open_after b rest

/-- The text has a segment-start marker with no line of a segment-end marker
after it. -/
def has_unmatched_start (out : List Line) : Prop :=
  ∃ before after : List Line,
    out = before ++ trk_start_lines ++ after ∧ ∀ l ∈ after, Line.is_trk_end l = false

/-- What holds of every state the logger goes through. -/
structure Inv (s : Globals) : Prop where
  usable : s.logfile.usable = true
  track : s.intrack = !s.first
  no_close : Line.gpx_close ∉ s.logfile.content
  balanced : ∃ n, boundary_lines s.logfile.content
      = closed_segments n ++ (if s.intrack then trk_start_lines else [])
  first_iff : s.first = true ↔ trkpt_part s.logfile.content = []
  scan : open_after false s.logfile.content = s.intrack
  marker : s.intrack = true → has_unmatched_start s.logfile.content

/-- The states the logger goes through: the state at program start, the
state after the header, and every state after a further call of
`conditionally_log_fix`. -/
inductive Reachable (earth_distance : EarthDistance) : Globals → Prop where
  | start (timeout : Int) (minmove : Double) :
      Reachable earth_distance (Globals.initial timeout minmove)
  | header (timeout : Int) (minmove : Double) (now : Double) (s : Globals) :
      print_gpx_header now (Globals.initial timeout minmove) = some s →
      Reachable earth_distance s
  | fix (s s' : Globals) (g : gps_data_t) :
      Reachable earth_distance s →
      conditionally_log_fix earth_distance s g = some s' →
      Reachable earth_distance s'

/-- The accepted fixes of a sequence, in arrival order. -/
def accepted_fixes (earth_distance : EarthDistance) :
    Globals → List gps_data_t → List gps_data_t
  | _, [] => []
  | s, g :: gs =>
    match conditionally_log_fix earth_distance s g with
    | none => []
    | some s' =>
      (if accepted earth_distance s g then [g] else []) ++ accepted_fixes earth_distance s' gs

/-- The `<trkpt>` elements of a list of fixes, one after the other, each
rendered as `conditionally_log_fix` calls `print_fix` (with the time of the
fix). -/
def render_fixes : List gps_data_t → List Line
  | [] => []
  | g :: gs => trkpt_lines g g.fix.time ++ render_fixes gs

/-- A stand-in for `earth_distance` on concrete inputs, in metres: 111195 m
per degree along each axis, added up.  Symmetric, zero between equal points;
NaN as soon as a coordinate is not finite. -/
def grid_distance : EarthDistance
  | .fin lat1, .fin lon1, .fin lat2, .fin lon2 =>
    .fin (111195 * (|lat1 - lat2| + |lon1 - lon2|))
  | _, _, _, _ => .nan

/-- A 3D fix at the given time and position with nothing else known. -/
def sample_fix (time lat lon : ℚ) : gps_data_t :=
  { fix := { time := .fin time, mode := MODE_3D, latitude := .fin lat, longitude := .fin lon,
             altitude := .nan }
    status := 1
    satellites_used := 0
    dop := { hdop := .nan, vdop := .nan, pdop := .nan }
    tag := "" }

/-- A differential fix with altitude, seven satellites, HDOP and PDOP known
and VDOP unknown. -/
def dgps_fix : gps_data_t :=
  { fix := { time := .fin 100, mode := MODE_3D, latitude := .fin 48, longitude := .fin 11,
             altitude := .fin 520 }
    status := STATUS_DGPS_FIX
    satellites_used := 7
    dop := { hdop := .fin 1, vdop := .nan, pdop := .fin 2 }
    tag := "GGA" }

/-- A report with no fix yet: mode "no fix", nothing known, no satellites. -/
def no_fix_report : gps_data_t :=
  { fix := { time := .fin 101, mode := MODE_NO_FIX, latitude := .nan, longitude := .nan,
             altitude := .nan }
    status := 0
    satellites_used := 0
    dop := { hdop := .nan, vdop := .nan, pdop := .nan }
    tag := "" }

/-- The state after two accepted 3D fixes at t = 100 and t = 102, with
timeout 5 and distance filtering off. -/
def state_after_100_102 : Globals :=
  ((Globals.initial 5 (Double.fin 0)).accept (sample_fix 100 0 0)).accept (sample_fix 102 0 0)

/-- The state after one accepted 3D fix at t = 100 at latitude 0, longitude 0,
with timeout 5 and a minimum movement of 10 m. -/
def state_after_first_minmove : Globals :=
  (Globals.initial 5 (Double.fin 10)).accept (sample_fix 100 0 0)

/-! ## The writer functions on a usable stream -/

@[simp] theorem write_usable (s : Globals) (ls : List Line) :
    (s.write ls).logfile.usable = s.logfile.usable := rfl

@[simp] theorem write_content (s : Globals) (ls : List Line) :
    (s.write ls).logfile.content = s.logfile.content ++ ls := rfl

theorem write_nil (s : Globals) : s.write [] = s := by
  simp [Globals.write]

theorem write_write (s : Globals) (xs ys : List Line) :
    (s.write xs).write ys = s.write (xs ++ ys) := by
  simp [Globals.write]

theorem emit_usable (s : Globals) (l : Line) (h : s.logfile.usable = true) :
    emit s l = some (s.write [l]) := by
  simp [emit, fprintf, h, Globals.write]

theorem flush_usable (s : Globals) (h : s.logfile.usable = true) : flush s = some s := by
  simp [flush, fflush, h]

theorem print_gpx_header_usable (now : Double) (s : Globals) (h : s.logfile.usable = true) :
    print_gpx_header now s = some (s.write (header_lines now)) := by
  simp [print_gpx_header, emit, flush, fprintf, fflush, h, Globals.write, header_lines]

theorem print_gpx_trk_end_usable (s : Globals) (h : s.logfile.usable = true) :
    print_gpx_trk_end s = some (s.write trk_end_lines) := by
  simp [print_gpx_trk_end, emit, flush, fprintf, fflush, h, Globals.write, trk_end_lines]

theorem print_gpx_trk_start_usable (s : Globals) (h : s.logfile.usable = true) :
    print_gpx_trk_start s = some (s.write trk_start_lines) := by
  simp [print_gpx_trk_start, emit, flush, fprintf, fflush, h, Globals.write, trk_start_lines]

theorem emit_if_usable (s : Globals) (c : Prop) [Decidable c] (l : Line)
    (h : s.logfile.usable = true) :
    (if c then emit s l else some s) = some (s.write (opt_line (decide c) l)) := by
  by_cases hc : c
  · simp [hc, opt_line, emit_usable _ _ h]
  · simp [hc, opt_line, write_nil]

theorem emit_fix_quality (s : Globals) (g : gps_data_t) (h : s.logfile.usable = true) :
    (if g.status = STATUS_DGPS_FIX then emit s Line.fix_dgps
      else if g.fix.mode = MODE_3D then emit s Line.fix_3d
      else if g.fix.mode = MODE_2D then emit s Line.fix_2d
      else if g.fix.mode = MODE_NO_FIX then emit s Line.fix_none
      else some s) = some (s.write (fix_quality g)) := by
  unfold fix_quality
  split_ifs <;> simp [emit_usable _ _ h, write_nil]

theorem print_fix_usable (s : Globals) (g : gps_data_t) (time : Double)
    (h : s.logfile.usable = true) :
    print_fix s g time = some (s.write (trkpt_lines g time)) := by
  unfold print_fix
  rw [emit_usable _ _ h]
  simp only [Option.bind_eq_bind, Option.some_bind]
  rw [emit_if_usable _ _ _ (by simpa using h)]
  simp only [Option.some_bind]
  rw [emit_usable _ _ (by simpa using h)]
  simp only [Option.some_bind]
  rw [emit_usable _ _ (by simpa using h)]
  simp only [Option.some_bind]
  rw [emit_fix_quality _ _ (by simpa using h)]
  simp only [Option.some_bind]
  rw [emit_if_usable _ _ _ (by simpa using h)]
  simp only [Option.some_bind]
  rw [emit_if_usable _ _ _ (by simpa using h)]
  simp only [Option.some_bind]
  rw [emit_if_usable _ _ _ (by simpa using h)]
  simp only [Option.some_bind]
  rw [emit_if_usable _ _ _ (by simpa using h)]
  simp only [Option.some_bind]
  rw [emit_usable _ _ (by simpa using h)]
  simp only [Option.some_bind]
  rw [flush_usable _ (by simpa using h)]
  simp only [write_write, trkpt_lines, trkpt_children, List.append_assoc]
  congr 3
  simp [Bool.decide_and]

/-! ## The segmenter, case by case -/

theorem conditionally_log_fix_discard (ed : EarthDistance) (s : Globals) (g : gps_data_t)
    (h : accepted ed s g = false) :
    conditionally_log_fix ed s g = some (s.discard g) := by
  unfold conditionally_log_fix
  simp only [accepted, stale_or_invalid, too_close, Bool.and_eq_false_imp,
    Bool.not_eq_true', Bool.not_eq_false'] at h
  by_cases h1 : (Double.eq g.fix.time s.old_int_time || decide (g.fix.mode < MODE_2D)) = true
  · simp only [h1, if_true, Globals.discard]
  · simp only [h1, if_false]
    have h2 := h (by simpa using h1)
    simp [h2, Globals.discard]

theorem conditionally_log_fix_accept (ed : EarthDistance) (s : Globals) (g : gps_data_t)
    (hu : s.logfile.usable = true) (h : accepted ed s g = true) :
    conditionally_log_fix ed s g = some (s.accept g) := by
  unfold conditionally_log_fix
  simp only [accepted, stale_or_invalid, too_close, Bool.and_eq_true, Bool.not_eq_true'] at h
  obtain ⟨h1, h2⟩ := h
  simp only [h1, h2, Bool.false_eq_true, if_false]
  have hgap : (Double.fabs (Double.sub g.fix.time s.old_int_time)).gt (Double.ofInt s.timeout)
      = gap_exceeds s g := rfl
  rw [hgap]
  cases hc : gap_exceeds s g <;> cases hi : s.intrack <;> cases hf : s.first <;>
    cases hm : Double.gt s.minmove (Double.ofInt 0) <;>
    simp [hc, hi, hf, hm, hu, print_gpx_trk_end_usable, print_gpx_trk_start_usable,
      print_fix_usable, Globals.accept, closes_segment, opens_segment, Globals.write]

/-! ## Facts about the lines of a `<trkpt>` element and of the markers -/

theorem opt_line_is_trkpt (c : Bool) (x : Line) (hx : Line.is_trkpt x = true) :
    ∀ l ∈ opt_line c x, Line.is_trkpt l = true := by
  cases c <;> simp [opt_line, hx]

theorem fix_quality_is_trkpt (g : gps_data_t) :
    ∀ l ∈ fix_quality g, Line.is_trkpt l = true := by
  unfold fix_quality
  split_ifs <;> simp [Line.is_trkpt]

theorem trkpt_lines_is_trkpt (g : gps_data_t) (t : Double) :
    ∀ l ∈ trkpt_lines g t, Line.is_trkpt l = true := by
  unfold trkpt_lines trkpt_children
  simp only [List.forall_mem_append]
  refine ⟨⟨?_, ⟨⟨⟨⟨⟨⟨⟨?_, ?_⟩, ?_⟩, ?_⟩, ?_⟩, ?_⟩, ?_⟩, ?_⟩⟩, ?_⟩
  all_goals first
    | exact opt_line_is_trkpt _ _ rfl
    | exact fix_quality_is_trkpt g
    | simp [Line.is_trkpt]

theorem is_trkpt_not_boundary (l : Line) (h : Line.is_trkpt l = true) :
    Line.is_boundary l = false := by
  cases l <;> simp_all [Line.is_trkpt, Line.is_boundary]

theorem is_trkpt_not_trk_end (l : Line) (h : Line.is_trkpt l = true) :
    Line.is_trk_end l = false := by
  cases l <;> simp_all [Line.is_trkpt, Line.is_trk_end]

theorem boundary_lines_trkpt (g : gps_data_t) (t : Double) :
    boundary_lines (trkpt_lines g t) = [] := by
  simp only [boundary_lines, List.filter_eq_nil_iff]
  intro l hl
  simp [is_trkpt_not_boundary l (trkpt_lines_is_trkpt g t l hl)]

theorem trkpt_part_trkpt (g : gps_data_t) (t : Double) :
    trkpt_part (trkpt_lines g t) = trkpt_lines g t := by
  simp only [trkpt_part, List.filter_eq_self]
  exact trkpt_lines_is_trkpt g t

theorem gpx_close_not_mem_trkpt (g : gps_data_t) (t : Double) :
    Line.gpx_close ∉ trkpt_lines g t := by
  intro h
  have := trkpt_lines_is_trkpt g t _ h
  simp [Line.is_trkpt] at this

theorem trkpt_lines_ne_nil (g : gps_data_t) (t : Double) : trkpt_lines g t ≠ [] := by
  simp [trkpt_lines]

theorem open_after_append (b : Bool) (xs ys : List Line) :
    open_after b (xs ++ ys) = open_after (open_after b xs) ys := by
  induction xs generalizing b with
  | nil => rfl
  | cons x xs ih => cases x <;> simp [open_after, ih]

theorem open_after_trkpt_line (b : Bool) (xs : List Line)
    (h : ∀ l ∈ xs, Line.is_trkpt l = true) : open_after b xs = b := by
  induction xs generalizing b with
  | nil => rfl
  | cons x xs ih =>
    have hx := h x (List.mem_cons_self _ _)
    have hxs : ∀ l ∈ xs, Line.is_trkpt l = true := fun l hl => h l (List.mem_cons_of_mem _ hl)
    cases x
    all_goals first
      | exact ih _ hxs
      | exact absurd hx (by simp [Line.is_trkpt])

theorem open_after_no_trk_end (xs : List Line)
    (h : ∀ l ∈ xs, Line.is_trk_end l = false) : open_after true xs = true := by
  induction xs with
  | nil => rfl
  | cons x xs ih =>
    have hx := h x (List.mem_cons_self _ _)
    have hxs : ∀ l ∈ xs, Line.is_trk_end l = false := fun l hl => h l (List.mem_cons_of_mem _ hl)
    cases x
    all_goals first
      | exact ih hxs
      | exact absurd hx (by simp [Line.is_trk_end])

theorem open_after_of_unmatched_start (out : List Line) (h : has_unmatched_start out) :
    open_after false out = true := by
  obtain ⟨pre, post, rfl, hpost⟩ := h
  rw [open_after_append, open_after_append]
  have : open_after (open_after false pre) trk_start_lines = true := by
    cases open_after false pre <;> rfl
  rw [this]
  exact open_after_no_trk_end post hpost

theorem boundary_lines_append (xs ys : List Line) :
    boundary_lines (xs ++ ys) = boundary_lines xs ++ boundary_lines ys := by
  simp [boundary_lines]

theorem trkpt_part_append (xs ys : List Line) :
    trkpt_part (xs ++ ys) = trkpt_part xs ++ trkpt_part ys := by
  simp [trkpt_part]

theorem boundary_lines_start : boundary_lines trk_start_lines = trk_start_lines := rfl

theorem boundary_lines_end : boundary_lines trk_end_lines = trk_end_lines := rfl

theorem boundary_lines_header (now : Double) : boundary_lines (header_lines now) = [] := rfl

theorem trkpt_part_start : trkpt_part trk_start_lines = [] := rfl

theorem trkpt_part_end : trkpt_part trk_end_lines = [] := rfl

theorem trkpt_part_header (now : Double) : trkpt_part (header_lines now) = [] := rfl

/-! ## The invariant -/

theorem inv_initial (timeout : Int) (minmove : Double) :
    Inv (Globals.initial timeout minmove) where
  usable := rfl
  track := rfl
  no_close := by simp [Globals.initial]
  balanced := ⟨0, rfl⟩
  first_iff := by simp [Globals.initial, trkpt_part]
  scan := rfl
  marker := by simp [Globals.initial]

theorem inv_header (timeout : Int) (minmove : Double) (now : Double) :
    Inv ((Globals.initial timeout minmove).write (header_lines now)) where
  usable := rfl
  track := rfl
  no_close := by simp [Globals.initial, header_lines]
  balanced := ⟨0, rfl⟩
  first_iff := by simp [Globals.initial, Globals.write, trkpt_part, header_lines, Line.is_trkpt]
  scan := rfl
  marker := by simp [Globals.initial, Globals.write]

theorem inv_discard (s : Globals) (g : gps_data_t) (h : Inv s) : Inv (s.discard g) where
  usable := h.usable
  track := h.track
  no_close := h.no_close
  balanced := h.balanced
  first_iff := h.first_iff
  scan := h.scan
  marker := h.marker

theorem accept_first (s : Globals) (g : gps_data_t) (hf : s.first = true)
    (hi : s.intrack = false) :
    (s.accept g).logfile.content
      = s.logfile.content ++ (trk_start_lines ++ trkpt_lines g g.fix.time)
    ∧ (s.accept g).first = false := by
  simp [Globals.accept, closes_segment, opens_segment, hf, hi]

theorem accept_gap (s : Globals) (g : gps_data_t) (hf : s.first = false)
    (hg : gap_exceeds s g = true) :
    (s.accept g).logfile.content
      = s.logfile.content ++ (trk_end_lines ++ (trk_start_lines ++ trkpt_lines g g.fix.time))
    ∧ (s.accept g).first = false := by
  simp [Globals.accept, closes_segment, opens_segment, hf, hg]

theorem accept_continue (s : Globals) (g : gps_data_t) (hf : s.first = false)
    (hi : s.intrack = true) (hg : gap_exceeds s g = false) :
    (s.accept g).logfile.content = s.logfile.content ++ trkpt_lines g g.fix.time
    ∧ (s.accept g).first = false := by
  simp [Globals.accept, closes_segment, opens_segment, hf, hi, hg]

theorem accept_intrack (s : Globals) (g : gps_data_t) : (s.accept g).intrack = true := rfl

theorem accept_usable (s : Globals) (g : gps_data_t) :
    (s.accept g).logfile.usable = s.logfile.usable := rfl

theorem unmatched_start_extend (out more : List Line) (h : has_unmatched_start out)
    (hm : ∀ l ∈ more, Line.is_trk_end l = false) : has_unmatched_start (out ++ more) := by
  obtain ⟨pre, post, rfl, hpost⟩ := h
  refine ⟨pre, post ++ more, by simp, ?_⟩
  intro l hl
  rcases List.mem_append.mp hl with hl | hl
  · exact hpost l hl
  · exact hm l hl

theorem unmatched_start_new (out pts : List Line)
    (hm : ∀ l ∈ pts, Line.is_trk_end l = false) :
    has_unmatched_start (out ++ (trk_start_lines ++ pts)) :=
  ⟨out, pts, by simp, hm⟩

theorem trkpt_lines_no_trk_end (g : gps_data_t) (t : Double) :
    ∀ l ∈ trkpt_lines g t, Line.is_trk_end l = false :=
  fun l hl => is_trkpt_not_trk_end l (trkpt_lines_is_trkpt g t l hl)

theorem inv_accept (s : Globals) (g : gps_data_t) (h : Inv s) : Inv (s.accept g) := by
  have hT := trkpt_lines_ne_nil g g.fix.time
  have hB := boundary_lines_trkpt g g.fix.time
  have hP := trkpt_part_trkpt g g.fix.time
  have hC := gpx_close_not_mem_trkpt g g.fix.time
  have hE := trkpt_lines_no_trk_end g g.fix.time
  have hO := open_after_trkpt_line
  obtain ⟨n, hn⟩ := h.balanced
  have htrack := h.track
  cases hf : s.first
  · -- a fix was accepted before: a segment is open
    have hi : s.intrack = true := by simp [htrack, hf]
    cases hg : gap_exceeds s g
    · obtain ⟨hc, hfirst⟩ := accept_continue s g hf hi hg
      refine ⟨h.usable, by simp [accept_intrack, hfirst], ?_, ⟨n, ?_⟩, ?_, ?_, ?_⟩
      · rw [hc]; simp [h.no_close, hC]
      · rw [hc, boundary_lines_append, hn, hB, accept_intrack, hi]; simp
      · rw [hc, trkpt_part_append, hP, hfirst]; simp [hT]
      · rw [hc, open_after_append, h.scan, hi, accept_intrack]
        exact hO true _ (trkpt_lines_is_trkpt g g.fix.time)
      · intro _
        rw [hc]
        exact unmatched_start_extend _ _ (h.marker hi) hE
    · obtain ⟨hc, hfirst⟩ := accept_gap s g hf hg
      refine ⟨h.usable, by simp [accept_intrack, hfirst], ?_, ⟨n + 1, ?_⟩, ?_, ?_, ?_⟩
      · rw [hc]; simp [h.no_close, hC, trk_end_lines, trk_start_lines]
      · rw [hc, boundary_lines_append, boundary_lines_append, boundary_lines_append, hn, hB,
          accept_intrack, hi, boundary_lines_start, boundary_lines_end]
        simp [closed_segments]
      · rw [hc, hfirst]
        simp [trkpt_part_append, hP, hT]
      · rw [hc, open_after_append, open_after_append, open_after_append, accept_intrack]
        rw [hO _ _ (trkpt_lines_is_trkpt g g.fix.time)]
        cases open_after false s.logfile.content <;> rfl
      · intro _
        rw [hc, ← List.append_assoc]
        exact unmatched_start_new _ _ hE
  · -- the first accepted fix: no segment is open
    have hi : s.intrack = false := by simp [htrack, hf]
    obtain ⟨hc, hfirst⟩ := accept_first s g hf hi
    refine ⟨h.usable, by simp [accept_intrack, hfirst], ?_, ⟨n, ?_⟩, ?_, ?_, ?_⟩
    · rw [hc]; simp [h.no_close, hC, trk_start_lines]
    · rw [hc, boundary_lines_append, boundary_lines_append, hn, hB, accept_intrack, hi,
        boundary_lines_start]
      simp
    · rw [hc, hfirst]
      simp [trkpt_part_append, hP, hT]
    · rw [hc, open_after_append, open_after_append, accept_intrack]
      rw [hO _ _ (trkpt_lines_is_trkpt g g.fix.time)]
      cases open_after false s.logfile.content <;> rfl
    · intro _
      rw [hc]
      exact unmatched_start_new _ _ hE

theorem conditionally_log_fix_usable (ed : EarthDistance) (s : Globals) (g : gps_data_t)
    (hu : s.logfile.usable = true) :
    conditionally_log_fix ed s g
      = some (if accepted ed s g then s.accept g else s.discard g) := by
  cases ha : accepted ed s g
  · simpa using conditionally_log_fix_discard ed s g ha
  · simpa using conditionally_log_fix_accept ed s g hu ha

theorem inv_step (ed : EarthDistance) (s s' : Globals) (g : gps_data_t) (h : Inv s)
    (hs : conditionally_log_fix ed s g = some s') : Inv s' := by
  rw [conditionally_log_fix_usable ed s g h.usable] at hs
  have := Option.some.inj hs
  subst this
  cases accepted ed s g
  · simpa using inv_discard s g h
  · simpa using inv_accept s g h

theorem inv_of_reachable (ed : EarthDistance) (s : Globals) (h : Reachable ed s) : Inv s := by
  induction h with
  | start timeout minmove => exact inv_initial timeout minmove
  | header timeout minmove now s hs =>
    rw [print_gpx_header_usable _ _ rfl] at hs
    have := Option.some.inj hs
    subst this
    exact inv_header timeout minmove now
  | fix s s' g _ hs ih => exact inv_step ed s s' g ih hs

theorem log_fixes_inv (ed : EarthDistance) (fixes : List gps_data_t) (s : Globals)
    (h : Inv s) : ∃ s', log_fixes ed s fixes = some s' ∧ Inv s' := by
  induction fixes generalizing s with
  | nil => exact ⟨s, rfl, h⟩
  | cons g gs ih =>
    have hs := conditionally_log_fix_usable ed s g h.usable
    obtain ⟨s', hs', hinv⟩ := ih _ (inv_step ed s _ g h hs)
    exact ⟨s', by simp [log_fixes, hs, hs'], hinv⟩

theorem print_gpx_footer_usable (s : Globals) (hu : s.logfile.usable = true) :
    print_gpx_footer s
      = some { s with logfile :=
          { usable := false
            content := s.logfile.content
              ++ ((if s.intrack then trk_end_lines else []) ++ [Line.gpx_close]) } } := by
  unfold print_gpx_footer
  cases hi : s.intrack <;>
    simp [print_gpx_trk_end_usable, emit_usable, hu, hi, fclose, Globals.write]

/-- C1: for every sequence of fixes (and every timeout, minimum movement,
distance function and clock value) the logger produces a document, and the
document is `body` followed by the single line `</gpx>`, where `body` has no
`</gpx>` line and its boundary lines are, for some `n`, exactly `n` times a
segment-start marker (`<trk>`, `<src>`, `<trkseg>`) followed by a segment-end
marker (`</trkseg>`, `</trk>`): every segment that is opened is closed before
the next one opens, and nothing is closed that was not opened. -/
theorem gpx_document_well_formed (ed : EarthDistance) (now : Double) (timeout : Int)
    (minmove : Double) (fixes : List gps_data_t) :
    ∃ (body : List Line) (n : Nat),
      gpx_document ed now timeout minmove fixes = some (body ++ [Line.gpx_close])
      ∧ Line.gpx_close ∉ body
      ∧ boundary_lines body = closed_segments n := by
  have hh := print_gpx_header_usable now (Globals.initial timeout minmove) rfl
  obtain ⟨s, hs, hinv⟩ := log_fixes_inv ed fixes _ (inv_header timeout minmove now)
  obtain ⟨n, hn⟩ := hinv.balanced
  have hf := print_gpx_footer_usable s hinv.usable
  cases hi : s.intrack
  · refine ⟨s.logfile.content, n, ?_, hinv.no_close, by simpa [hi] using hn⟩
    simp [gpx_document, hh, hs, hf, hi]
  · refine ⟨s.logfile.content ++ trk_end_lines, n + 1, ?_, ?_, ?_⟩
    · simp [gpx_document, hh, hs, hf, hi]
    · simp [hinv.no_close, trk_end_lines]
    · rw [boundary_lines_append, hn, hi, boundary_lines_end]
      simp [closed_segments]

/-! ## The segmentation rules -/

/-- C3: a fix whose timestamp compares equal (C `==`) to the last accepted
timestamp, or whose mode is below 2D, is discarded in every state: the call
returns, nothing is written, and every variable but the scratch copy
`int_time` keeps its value. -/
theorem stale_or_invalid_discarded (ed : EarthDistance) (s : Globals) (g : gps_data_t)
    (h : Double.eq g.fix.time s.old_int_time = true ∨ g.fix.mode < MODE_2D) :
    conditionally_log_fix ed s g = some { s with int_time := g.fix.time } := by
  have ha : accepted ed s g = false := by
    rcases h with h | h <;> simp [accepted, stale_or_invalid, h]
  exact conditionally_log_fix_discard ed s g ha

theorem state_after_100_102_reachable : Reachable grid_distance state_after_100_102 := by
  refine Reachable.fix ((Globals.initial 5 (Double.fin 0)).accept (sample_fix 100 0 0)) _
    (sample_fix 102 0 0)
    (Reachable.fix (Globals.initial 5 (Double.fin 0)) _ (sample_fix 100 0 0)
      (Reachable.start 5 (Double.fin 0)) ?_) ?_
  · refine conditionally_log_fix_accept _ _ _ rfl ?_
    simp [accepted, stale_or_invalid, too_close, Globals.initial, sample_fix, Double.eq,
      Double.gt, Double.lt, Double.ofInt, MODE_2D, MODE_3D]
  · refine conditionally_log_fix_accept _ _ _ rfl ?_
    simp [accepted, stale_or_invalid, too_close, Globals.initial, Globals.accept, sample_fix,
      Double.eq, Double.gt, Double.lt, Double.ofInt, MODE_2D, MODE_3D]

/-- Witness for C3: right after a fix at t = 100 was accepted, a second fix
with the same timestamp at another position. -/
theorem stale_or_invalid_discarded_witness :
    (Double.eq (sample_fix 100 7 9).fix.time state_after_first_minmove.old_int_time = true
      ∨ (sample_fix 100 7 9).fix.mode < MODE_2D)
    ∧ conditionally_log_fix grid_distance state_after_first_minmove (sample_fix 100 7 9)
        = some { state_after_first_minmove with int_time := (sample_fix 100 7 9).fix.time } :=
  ⟨Or.inl (by simp [state_after_first_minmove, Globals.accept, sample_fix, Double.eq]),
    stale_or_invalid_discarded grid_distance state_after_first_minmove (sample_fix 100 7 9)
      (Or.inl (by simp [state_after_first_minmove, Globals.accept, sample_fix, Double.eq]))⟩

theorem trkpt_part_accept (s : Globals) (g : gps_data_t) :
    trkpt_part (s.accept g).logfile.content
      = trkpt_part s.logfile.content ++ trkpt_lines g g.fix.time := by
  simp only [Globals.accept, trkpt_part_append, trkpt_part_trkpt]
  have hnil : trkpt_part [] = [] := rfl
  split_ifs <;> simp [trkpt_part_start, trkpt_part_end, hnil]

/-- C4: with a minimum movement M > 0, once a fix has been accepted a fix
closer than M to the last accepted position is discarded: the call returns,
nothing is written, and the last accepted timestamp and position keep their
values (only the scratch copy `int_time` changes).  While no fix has been
accepted the rule does not apply: a fix that passes the timestamp and mode
test is written and recorded whatever its distance. -/
theorem too_close_discarded (ed : EarthDistance) (s : Globals) (g : gps_data_t)
    (hM : Double.gt s.minmove (Double.ofInt 0) = true) :
    (s.first = false →
      Double.lt (ed g.fix.latitude g.fix.longitude s.old_lat s.old_lon) s.minmove = true →
      conditionally_log_fix ed s g = some { s with int_time := g.fix.time })
    ∧ (s.first = true → s.logfile.usable = true → stale_or_invalid s g = false →
        ∃ s', conditionally_log_fix ed s g = some s'
          ∧ trkpt_part s'.logfile.content
              = trkpt_part s.logfile.content ++ trkpt_lines g g.fix.time
          ∧ s'.old_int_time = g.fix.time
          ∧ s'.old_lat = g.fix.latitude
          ∧ s'.old_lon = g.fix.longitude) := by
  constructor
  · intro hf hd
    have ha : accepted ed s g = false := by
      simp [accepted, too_close, hM, hf, hd]
    exact conditionally_log_fix_discard ed s g ha
  · intro hf hu hs
    have ha : accepted ed s g = true := by
      simp [accepted, too_close, hf, hs]
    refine ⟨s.accept g, conditionally_log_fix_accept ed s g hu ha, trkpt_part_accept s g, rfl,
      ?_, ?_⟩
    · simp [Globals.accept, hM]
    · simp [Globals.accept, hM]

/-- Witness for C4: M = 10 m, a fix accepted at latitude 0, longitude 0, then a
fix one second later 2 m to the north. -/
theorem too_close_discarded_witness :
    Double.gt state_after_first_minmove.minmove (Double.ofInt 0) = true
    ∧ state_after_first_minmove.first = false
    ∧ grid_distance (sample_fix 101 (2 / 111195) 0).fix.latitude
        (sample_fix 101 (2 / 111195) 0).fix.longitude
        state_after_first_minmove.old_lat state_after_first_minmove.old_lon = Double.fin 2
    ∧ conditionally_log_fix grid_distance state_after_first_minmove
          (sample_fix 101 (2 / 111195) 0)
        = some { state_after_first_minmove with
                  int_time := (sample_fix 101 (2 / 111195) 0).fix.time } := by
  have hM : Double.gt state_after_first_minmove.minmove (Double.ofInt 0) = true := by
    simp [state_after_first_minmove, Globals.accept, Globals.initial, Double.gt, Double.lt,
      Double.ofInt]
  have hf : state_after_first_minmove.first = false := by
    simp [state_after_first_minmove, Globals.accept, Globals.initial, opens_segment]
  have hd : grid_distance (sample_fix 101 (2 / 111195) 0).fix.latitude
      (sample_fix 101 (2 / 111195) 0).fix.longitude
      state_after_first_minmove.old_lat state_after_first_minmove.old_lon = Double.fin 2 := by
    simp [state_after_first_minmove, Globals.accept, Globals.initial, sample_fix, Double.gt,
      Double.lt, Double.ofInt, grid_distance]
    rw [abs_of_pos (by norm_num)]
    norm_num
  refine ⟨hM, hf, hd,
    (too_close_discarded grid_distance state_after_first_minmove
      (sample_fix 101 (2 / 111195) 0) hM).1 hf ?_⟩
  rw [hd]
  simp [state_after_first_minmove, Globals.accept, Globals.initial, Double.lt]
  norm_num

/-! ## The segment-open flag -/

/-- C5: in every state the logger can be in, `intrack` is true if and only if
the text written so far has a segment-start marker with no line of a
segment-end marker after it. -/
theorem intrack_iff_unmatched_start (ed : EarthDistance) (s : Globals)
    (hr : Reachable ed s) :
    s.intrack = true ↔ has_unmatched_start s.logfile.content := by
  have hinv := inv_of_reachable ed s hr
  constructor
  · exact hinv.marker
  · intro h
    rw [← hinv.scan]
    exact open_after_of_unmatched_start _ h

/-- Witness for C5: the state after the fixes at t = 100 and t = 102. -/
theorem intrack_iff_unmatched_start_witness :
    Reachable grid_distance state_after_100_102
    ∧ (state_after_100_102.intrack = true
        ↔ has_unmatched_start state_after_100_102.logfile.content) :=
  ⟨state_after_100_102_reachable,
    intrack_iff_unmatched_start grid_distance state_after_100_102
      state_after_100_102_reachable⟩

/-! ## Shutdown -/

/-- C7: on a usable stream `print_fix` writes exactly one `<trkpt>` element:
the opening line with latitude and longitude, then, in this order, `<ele>`
iff the altitude is not NaN, `<time>`, `<src>`, the `<fix>` line ("dgps" for
the differential status, else "3d", "2d" or "none" for the modes 3D, 2D and
no-fix, else nothing), `<sat>` iff the mode is above no-fix and
`satellites_used` is positive, `<hdop>`, `<vdop>`, `<pdop>` each iff its value
is not NaN, and the closing line. -/
theorem print_fix_element (s : Globals) (g : gps_data_t) (time : Double)
    (hu : s.logfile.usable = true) :
    print_fix s g time = some (s.write (
      [Line.trkpt_open g.fix.latitude g.fix.longitude]
      ++ (opt_line (!Double.isnan g.fix.altitude) (Line.ele g.fix.altitude)
      ++ [Line.time time]
      ++ [Line.src g.tag]
      ++ (if g.status = STATUS_DGPS_FIX then [Line.fix_dgps]
          else if g.fix.mode = MODE_3D then [Line.fix_3d]
          else if g.fix.mode = MODE_2D then [Line.fix_2d]
          else if g.fix.mode = MODE_NO_FIX then [Line.fix_none]
          else [])
      ++ opt_line (decide (g.fix.mode > MODE_NO_FIX) && decide (g.satellites_used > 0))
          (Line.sat g.satellites_used)
      ++ opt_line (!Double.isnan g.dop.hdop) (Line.hdop g.dop.hdop)
      ++ opt_line (!Double.isnan g.dop.vdop) (Line.vdop g.dop.vdop)
      ++ opt_line (!Double.isnan g.dop.pdop) (Line.pdop g.dop.pdop))
      ++ [Line.trkpt_close])) :=
  print_fix_usable s g time hu

/-- Witness for C7: a differential 3D fix with altitude, HDOP and PDOP known,
VDOP unknown and seven satellites used. -/
theorem print_fix_element_witness :
    (Globals.initial 5 (Double.fin 0)).logfile.usable = true
    ∧ print_fix (Globals.initial 5 (Double.fin 0)) dgps_fix (Double.fin 100)
        = some ((Globals.initial 5 (Double.fin 0)).write
            [Line.trkpt_open (Double.fin 48) (Double.fin 11),
             Line.ele (Double.fin 520),
             Line.time (Double.fin 100),
             Line.src "GGA",
             Line.fix_dgps,
             Line.sat 7,
             Line.hdop (Double.fin 1),
             Line.pdop (Double.fin 2),
             Line.trkpt_close]) :=
  ⟨rfl, by
    rw [print_fix_element (Globals.initial 5 (Double.fin 0)) dgps_fix (Double.fin 100) rfl]
    simp [dgps_fix, opt_line, Double.isnan, STATUS_DGPS_FIX, MODE_3D, MODE_NO_FIX]⟩

/-! ## Order of the points -/

theorem trkpt_part_step (ed : EarthDistance) (s : Globals) (g : gps_data_t) :
    trkpt_part (if accepted ed s g then s.accept g else s.discard g).logfile.content
      = trkpt_part s.logfile.content
        ++ render_fixes (if accepted ed s g then [g] else []) := by
  cases accepted ed s g
  · simp [Globals.discard, render_fixes]
  · simp [trkpt_part_accept, render_fixes]

theorem render_fixes_append (xs ys : List gps_data_t) :
    render_fixes (xs ++ ys) = render_fixes xs ++ render_fixes ys := by
  induction xs with
  | nil => rfl
  | cons x xs ih => simp [render_fixes, ih]

theorem step_usable (ed : EarthDistance) (s : Globals) (g : gps_data_t) :
    (if accepted ed s g then s.accept g else s.discard g).logfile.usable
      = s.logfile.usable := by
  cases accepted ed s g <;> rfl

/-- C8: feeding a sequence of fixes one by one to `conditionally_log_fix` on a
usable stream returns, and the `<trkpt>` lines of the text afterwards are those
that were there before followed by the `print_fix` renderings of the accepted
fixes, once each and in arrival order.  (As this holds for every sequence, it
holds after every fix: no rendering waits for a later fix.) -/
theorem trkpts_are_accepted_fixes (ed : EarthDistance) (s : Globals)
    (fixes : List gps_data_t) (hu : s.logfile.usable = true) :
    ∃ s', log_fixes ed s fixes = some s'
      ∧ trkpt_part s'.logfile.content
          = trkpt_part s.logfile.content ++ render_fixes (accepted_fixes ed s fixes) := by
  induction fixes generalizing s with
  | nil => exact ⟨s, rfl, by simp [accepted_fixes, render_fixes]⟩
  | cons g gs ih =>
    have hs := conditionally_log_fix_usable ed s g hu
    obtain ⟨s', hs', hp⟩ := ih _ ((step_usable ed s g).trans hu)
    refine ⟨s', by simp [log_fixes, hs, hs'], ?_⟩
    rw [hp, trkpt_part_step]
    simp [accepted_fixes, hs, render_fixes_append]

/-- Witness for C8: from the state at program start, a 3D fix at t = 100, a
report without a fix, and a 3D fix at t = 102. -/
theorem trkpts_are_accepted_fixes_witness :
    (Globals.initial 5 (Double.fin 0)).logfile.usable = true
    ∧ accepted_fixes grid_distance (Globals.initial 5 (Double.fin 0))
        [sample_fix 100 0 0, no_fix_report, sample_fix 102 0 0]
        = [sample_fix 100 0 0, sample_fix 102 0 0]
    ∧ ∃ s', log_fixes grid_distance (Globals.initial 5 (Double.fin 0))
          [sample_fix 100 0 0, no_fix_report, sample_fix 102 0 0] = some s'
      ∧ trkpt_part s'.logfile.content
          = trkpt_part (Globals.initial 5 (Double.fin 0)).logfile.content
            ++ render_fixes (accepted_fixes grid_distance (Globals.initial 5 (Double.fin 0))
                [sample_fix 100 0 0, no_fix_report, sample_fix 102 0 0]) :=
  ⟨rfl, by
    simp [accepted_fixes, conditionally_log_fix_usable, Globals.initial, Globals.accept,
      Globals.discard, accepted, stale_or_invalid, too_close, sample_fix, no_fix_report,
      Double.eq, Double.gt, Double.lt, Double.ofInt, MODE_2D, MODE_3D, MODE_NO_FIX],
    trkpts_are_accepted_fixes grid_distance (Globals.initial 5 (Double.fin 0))
      [sample_fix 100 0 0, no_fix_report, sample_fix 102 0 0] rfl⟩

/-! ## Start-up -/

/-- C9: the code at `-f` with a file that cannot be opened.  `logfile` is left
NULL (not `stdout`), the syslog message says "logging to stdout", the run goes
on, and the logger has no defined result on the NULL stream. -/
theorem main_fopen_failure :
    main sample_env grid_distance (Double.fin 0) [Opt.f "/var/log/track.gpx"]
        [sample_fix 100 0 0]
      = Run.logged
          { MainState.initial with
            logfile := FilePtr.null
            syslog := [Diag.fopen_failed "/var/log/track.gpx"] }
          0 none := by
  have hlen : "/var/log/track.gpx".length = 18 := by decide
  simp [main, option_loop, handle_option, sample_env, MainState.initial, start_logging,
    run_logger, MainState.globals, FilePtr.stream, print_gpx_header, emit, fprintf,
    Globals.initial, hlen]

/-- C10: the code at `-e sockets -e bogus`.  The second `-e` names no entry of
the table, yet there is no exit and no message: the run goes on with the
method of the first `-e`. -/
theorem main_unknown_method_after_known :
    main sample_env grid_distance (Double.fin 0) [Opt.e "sockets", Opt.e "bogus"] []
      = Run.logged { MainState.initial with method := some 1 } 1
          (some (header_lines (Double.fin 0) ++ [Line.gpx_close])) := by
  simp [main, option_loop, handle_option, find_method, sample_env, MainState.initial,
    start_logging, run_logger, MainState.globals, FilePtr.stream, Globals.initial,
    print_gpx_header_usable, gps_mainloop, log_fixes, print_gpx_footer_usable, header_lines,
    Globals.write]

/-- An unknown method as the only `-e` ends the run with status 1 and the
message on `stderr`. -/
theorem main_unknown_method_alone :
    main sample_env grid_distance (Double.fin 0) [Opt.e "bogus"] []
      = Run.exited 1
          { MainState.initial with stderr := [Diag.unknown_method "bogus"] } := by
  simp [main, option_loop, handle_option, find_method, sample_env, MainState.initial]

/-- With no option at all the stream is `stdout`, the method is `methods[0]`
and the document is written. -/
theorem main_default_stream :
    main sample_env grid_distance (Double.fin 0) [] []
      = Run.logged MainState.initial 0
          (some (header_lines (Double.fin 0) ++ [Line.gpx_close])) := by
  simp [main, option_loop, sample_env, MainState.initial,
    start_logging, run_logger, MainState.globals, FilePtr.stream, Globals.initial,
    print_gpx_header_usable, gps_mainloop, log_fixes, print_gpx_footer_usable, header_lines,
    Globals.write]

/-- Whatever the state, `-f` with a template that expands and a file that
cannot be opened leaves `logfile` NULL and goes on. -/
theorem handle_option_fopen_failure (env : Env) (st : MainState) (optarg : String)
    (hn : (env.strftime optarg).1 ≠ 0) (hf : env.fopen (env.strftime optarg).2 = false) :
    handle_option env st (Opt.f optarg)
      = Step.next { st with
          logfile := FilePtr.null
          syslog := st.syslog ++ [Diag.fopen_failed (env.strftime optarg).2] } := by
  simp [handle_option, hn, hf]

/-- Whatever the state, `-f` with a template that `strftime` rejects leaves
`logfile` as it was. -/
theorem handle_option_bad_template (env : Env) (st : MainState) (optarg : String)
    (hn : (env.strftime optarg).1 = 0) :
    handle_option env st (Opt.f optarg)
      = Step.next { st with syslog := st.syslog ++ [Diag.bad_template optarg] } := by
  simp [handle_option, hn]

theorem find_method_unknown (optarg : String) (methods : List method_t)
    (h : ∀ mp ∈ methods, mp.name ≠ optarg) (i : Nat) (method : Option Nat) :
    find_method optarg methods i method = method := by
  induction methods generalizing i method with
  | nil => rfl
  | cons mp rest ih =>
    have h1 : mp.name ≠ optarg := h mp (List.mem_cons_self _ _)
    have h2 : ∀ m ∈ rest, m.name ≠ optarg := fun m hm => h m (List.mem_cons_of_mem _ hm)
    simp [find_method, h1, ih h2]

/-- While `method` is still NULL, `-e` with a name that is not in the table
ends the run with status 1 and the message on `stderr`. -/
theorem handle_option_unknown_method (env : Env) (st : MainState) (optarg : String)
    (h : ∀ mp ∈ env.methods, mp.name ≠ optarg) (hm : st.method = none) :
    handle_option env st (Opt.e optarg)
      = Step.exit 1 { st with stderr := st.stderr ++ [Diag.unknown_method optarg] } := by
  simp [handle_option, find_method_unknown optarg env.methods h, hm]

/-- Once `method` points to an entry, `-e` with a name that is not in the table
changes nothing and goes on. -/
theorem handle_option_unknown_method_ignored (env : Env) (st : MainState) (optarg : String)
    (h : ∀ mp ∈ env.methods, mp.name ≠ optarg) (i : Nat) (hm : st.method = some i) :
    handle_option env st (Opt.e optarg) = Step.next st := by
  cases st
  simp_all [handle_option, find_method_unknown optarg _ h]

/-- The logger started by `main` with a usable stream writes the document of
`gpx_document`. -/
theorem run_logger_initial (ed : EarthDistance) (now : Double) (timeout : Int)
    (minmove : Double) (fixes : List gps_data_t) :
    run_logger ed now (Globals.initial timeout minmove) fixes
      = gpx_document ed now timeout minmove fixes := rfl

/-- A NaN timestamp does not compare equal to itself: the equality test of
`conditionally_log_fix` is the comparison of doubles. -/
theorem nan_not_eq_nan : Double.eq Double.nan Double.nan = false := rfl

/-! ## The scenarios of the specification -/

/-- Shutdown right after one accepted fix (timeout 5, distance filtering off):
one `<trkpt>`, one closed segment, and `</gpx>` at the end. -/
theorem document_one_fix (now : Double) :
    gpx_document grid_distance now 5 (Double.fin 0) [sample_fix 100 0 0]
      = some (header_lines now ++
          [Line.trk_open, Line.trk_src, Line.trkseg_open,
           Line.trkpt_open (Double.fin 0) (Double.fin 0), Line.time (Double.fin 100),
           Line.src "", Line.fix_3d, Line.trkpt_close,
           Line.trkseg_close, Line.trk_close,
           Line.gpx_close]) := by
  simp [gpx_document, print_gpx_header_usable, log_fixes,
    conditionally_log_fix_usable, print_gpx_footer_usable, Globals.initial, Globals.write,
    Globals.accept, Globals.discard, accepted, stale_or_invalid, too_close, closes_segment,
    opens_segment, gap_exceeds, sample_fix, trkpt_lines, trkpt_children, fix_quality, opt_line,
    trk_start_lines, trk_end_lines, Double.eq, Double.gt, Double.lt, Double.sub, Double.fabs,
    Double.ofInt, Double.isnan, MODE_2D, MODE_3D, MODE_NO_FIX, STATUS_DGPS_FIX]

/-- Timeout 5, distance filtering off, 3D fixes at t = 100, 102, 200: two
segments, the first with two points, the second with one. -/
theorem document_100_102_200 (now : Double) :
    gpx_document grid_distance now 5 (Double.fin 0)
        [sample_fix 100 0 0, sample_fix 102 0 0, sample_fix 200 0 0]
      = some (header_lines now ++
          [Line.trk_open, Line.trk_src, Line.trkseg_open,
           Line.trkpt_open (Double.fin 0) (Double.fin 0), Line.time (Double.fin 100),
           Line.src "", Line.fix_3d, Line.trkpt_close,
           Line.trkpt_open (Double.fin 0) (Double.fin 0), Line.time (Double.fin 102),
           Line.src "", Line.fix_3d, Line.trkpt_close,
           Line.trkseg_close, Line.trk_close,
           Line.trk_open, Line.trk_src, Line.trkseg_open,
           Line.trkpt_open (Double.fin 0) (Double.fin 0), Line.time (Double.fin 200),
           Line.src "", Line.fix_3d, Line.trkpt_close,
           Line.trkseg_close, Line.trk_close,
           Line.gpx_close]) := by
  simp [gpx_document, print_gpx_header_usable, log_fixes,
    conditionally_log_fix_usable, print_gpx_footer_usable, Globals.initial, Globals.write,
    Globals.accept, Globals.discard, accepted, stale_or_invalid, too_close, closes_segment,
    opens_segment, gap_exceeds, sample_fix, trkpt_lines, trkpt_children, fix_quality, opt_line,
    trk_start_lines, trk_end_lines, Double.eq, Double.gt, Double.lt, Double.sub, Double.fabs,
    Double.ofInt, Double.isnan, MODE_2D, MODE_3D, MODE_NO_FIX, STATUS_DGPS_FIX]
  norm_num [abs_of_pos]

/-- The same with the clock running backwards: 3D fixes at t = 200 and then
t = 100 are put in two segments. -/
theorem document_clock_regression (now : Double) :
    gpx_document grid_distance now 5 (Double.fin 0) [sample_fix 200 0 0, sample_fix 100 0 0]
      = some (header_lines now ++
          [Line.trk_open, Line.trk_src, Line.trkseg_open,
           Line.trkpt_open (Double.fin 0) (Double.fin 0), Line.time (Double.fin 200),
           Line.src "", Line.fix_3d, Line.trkpt_close,
           Line.trkseg_close, Line.trk_close,
           Line.trk_open, Line.trk_src, Line.trkseg_open,
           Line.trkpt_open (Double.fin 0) (Double.fin 0), Line.time (Double.fin 100),
           Line.src "", Line.fix_3d, Line.trkpt_close,
           Line.trkseg_close, Line.trk_close,
           Line.gpx_close]) := by
  simp [gpx_document, print_gpx_header_usable, log_fixes,
    conditionally_log_fix_usable, print_gpx_footer_usable, Globals.initial, Globals.write,
    Globals.accept, Globals.discard, accepted, stale_or_invalid, too_close, closes_segment,
    opens_segment, gap_exceeds, sample_fix, trkpt_lines, trkpt_children, fix_quality, opt_line,
    trk_start_lines, trk_end_lines, Double.eq, Double.gt, Double.lt, Double.sub, Double.fabs,
    Double.ofInt, Double.isnan, MODE_2D, MODE_3D, MODE_NO_FIX, STATUS_DGPS_FIX]
  norm_num [abs_of_neg]

/-- Minimum movement 10 m, two fixes one second and 2 m apart: the second is
discarded, one `<trkpt>` is written. -/
theorem document_minmove (now : Double) :
    gpx_document grid_distance now 5 (Double.fin 10)
        [sample_fix 100 0 0, sample_fix 101 (2 / 111195) 0]
      = some (header_lines now ++
          [Line.trk_open, Line.trk_src, Line.trkseg_open,
           Line.trkpt_open (Double.fin 0) (Double.fin 0), Line.time (Double.fin 100),
           Line.src "", Line.fix_3d, Line.trkpt_close,
           Line.trkseg_close, Line.trk_close,
           Line.gpx_close]) := by
  simp [gpx_document, print_gpx_header_usable, log_fixes,
    conditionally_log_fix_usable, print_gpx_footer_usable, Globals.initial, Globals.write,
    Globals.accept, Globals.discard, accepted, stale_or_invalid, too_close, closes_segment,
    opens_segment, gap_exceeds, sample_fix, trkpt_lines, trkpt_children, fix_quality, opt_line,
    trk_start_lines, trk_end_lines, Double.eq, Double.gt, Double.lt, Double.sub, Double.fabs,
    Double.ofInt, Double.isnan, MODE_2D, MODE_3D, MODE_NO_FIX, STATUS_DGPS_FIX, grid_distance]
  norm_num [abs_of_pos, print_gpx_footer_usable, trk_end_lines]

end Gpxlogger
